import Mathlib

/-!
Shallow embedding of the SEV shim boot handoff and diagnostic unwinder from
src/internal/shim-sev/src/main.rs, with theorems settling the claims about
bootstrap ordering, the single-writer discipline on the trust statics, the
fault path, the stack switch, and the frame-pointer walk.
-/

namespace ShimSev

/-- Modulus of the 64-bit usize arithmetic used by the shim. -/
def USIZE_MOD : Nat := 2 ^ 64

/-- Rust checked_add on usize: some on success, none on overflow. -/
def checkedAdd (a b : Nat) : Option Nat :=
  if a + b < USIZE_MOD then some (a + b) else none

/-- Rust checked_sub on usize: some on success, none on underflow. -/
def checkedSub (a b : Nat) : Option Nat :=
  if b ≤ a then some (a - b) else none

/-- Result of the final stack switch of main.rs lines 80-92: either the
alignment assertion routes to the panic handler, or control transfers to the
supplied entry function on the new stack. -/
inductive SwitchResult where
  | panicked
  | transferred
deriving DecidableEq

/-- Embeds switch_shim_stack (main.rs lines 80-92): the assertion
assert_eq(sp % 16, 0) runs before the inline assembly that installs the new
stack pointer and calls the entry function, so a misaligned target fails
before any control transfer, and an aligned target transfers control. -/
def switch_shim_stack (sp : Nat) : SwitchResult :=
  if sp % 16 = 0 then SwitchResult.transferred else SwitchResult.panicked

/-- Outcome of the panic handler: an orderly exit through the host channel,
or the provoked triple fault causing a VM shutdown. -/
inductive PanicOutcome where
  | exited (code : Nat)
  | tripleFault
deriving DecidableEq

/-- Embeds the panic handler (main.rs lines 152-173) at the level the claims
need: given whether printing is enabled and whether the reentrancy flag
ALREADY_IN_PANIC is already set, return whether any output is produced and
how execution ends. The compare-exchange from false to true succeeds exactly
when the flag was false; only then are the panic info and the stack trace
printed and shim_exit 255 requested, otherwise the handler falls through to
the triple fault with no output. -/
def panic (printingEnabled alreadyInPanic : Bool) : Bool × PanicOutcome :=
  if printingEnabled && !alreadyInPanic then (true, PanicOutcome.exited 255)
  else (false, PanicOutcome.tripleFault)

/-- The global-state-relevant actions of the program. The first seven are the
straight-line statements of the entry function __impl_start (main.rs lines
107-133) in source order; the last three stand for the code paths that run
after bootstrap or on a fault (the panic handler, the diagnostic unwinder and
the payload), none of which writes the trust statics. -/
inductive ProgStep where
  | storeCBit
  | storeHostcallAddr
  | snapshotBootInfo
  | ingestSecret
  | switchUnencrypted
  | enablePrinting
  | stackSwitch
  | panicEnter
  | unwinderRun
  | payloadRun
deriving DecidableEq

/-- The statements of __impl_start in source order (main.rs lines 111-132):
store C_BIT_MASK, store SHIM_HOSTCALL_PHYS_ADDR, copy boot_info by value
into BOOT_INFO, copy the secret out of it, switch the sallyport block to
unencrypted, enable printing, and switch the stack to the entry function. -/
def bootSteps : List ProgStep :=
  [ProgStep.storeCBit, ProgStep.storeHostcallAddr, ProgStep.snapshotBootInfo,
   ProgStep.ingestSecret, ProgStep.switchUnencrypted, ProgStep.enablePrinting,
   ProgStep.stackSwitch]

/-- Steps that may run after bootstrap stops or completes: fault handling,
the unwinder, and the payload. -/
def isPostStep : ProgStep → Bool
  | ProgStep.panicEnter => true
  | ProgStep.unwinderRun => true
  | ProgStep.payloadRun => true
  | _ => false

/-- Process-wide trust state: write counters for the three trust statics
C_BIT_MASK, SHIM_HOSTCALL_PHYS_ADDR and BOOT_INFO, and the progress flags
the ordering claims are about. -/
structure TrustState where
  cBitWrites : Nat
  hostcallAddrWrites : Nat
  bootInfoWrites : Nat
  snapshotDone : Bool
  secretDone : Bool
  unencrypted : Bool
  printingEnabled : Bool
  running : Bool
deriving DecidableEq

/-- State at VM entry: nothing written, nothing established. -/
def initState : TrustState :=
  ⟨0, 0, 0, false, false, false, false, false⟩

/-- Effect of each step on the trust state. Each of the three statics is
written by exactly one statement of __impl_start; the panic handler (which
touches only its own reentrancy flag), the unwinder (which only reads and
force-unlocks), and the payload write none of them. -/
def applyStep (s : TrustState) : ProgStep → TrustState
  | ProgStep.storeCBit =>
      ⟨s.cBitWrites + 1, s.hostcallAddrWrites, s.bootInfoWrites, s.snapshotDone,
       s.secretDone, s.unencrypted, s.printingEnabled, s.running⟩
  | ProgStep.storeHostcallAddr =>
      ⟨s.cBitWrites, s.hostcallAddrWrites + 1, s.bootInfoWrites, s.snapshotDone,
       s.secretDone, s.unencrypted, s.printingEnabled, s.running⟩
  | ProgStep.snapshotBootInfo =>
      ⟨s.cBitWrites, s.hostcallAddrWrites, s.bootInfoWrites + 1, true,
       s.secretDone, s.unencrypted, s.printingEnabled, s.running⟩
  | ProgStep.ingestSecret =>
      ⟨s.cBitWrites, s.hostcallAddrWrites, s.bootInfoWrites, s.snapshotDone,
       true, s.unencrypted, s.printingEnabled, s.running⟩
  | ProgStep.switchUnencrypted =>
      ⟨s.cBitWrites, s.hostcallAddrWrites, s.bootInfoWrites, s.snapshotDone,
       s.secretDone, true, s.printingEnabled, s.running⟩
  | ProgStep.enablePrinting =>
      ⟨s.cBitWrites, s.hostcallAddrWrites, s.bootInfoWrites, s.snapshotDone,
       s.secretDone, s.unencrypted, true, s.running⟩
  | ProgStep.stackSwitch =>
      ⟨s.cBitWrites, s.hostcallAddrWrites, s.bootInfoWrites, s.snapshotDone,
       s.secretDone, s.unencrypted, s.printingEnabled, true⟩
  | _ => s

/-- Trust state after a fault-injected execution: the first k statements of
__impl_start run (a fault injection stops bootstrap after k steps and, since
bootstrap is straight-line with no retry, no statement re-runs), followed by
any sequence of post-bootstrap steps. -/
def stateAfter (k : Nat) (post : List ProgStep) : TrustState :=
  (bootSteps.take k ++ post).foldl applyStep initState

/-- Modelled from the spec: the shim line of the boot metadata record
(hostlib BootInfo, not under src), a host-supplied description of the shim
physical layout with a start and an end; stack_trace reads only the start. -/
structure BootInfoM where
  shimStart : Nat
  shimEnd : Nat
deriving DecidableEq

/-- Environment of one run of stack_trace (main.rs lines 176-236): the
active page table as a mapped-or-not predicate on virtual addresses, the
64-bit word stored at each address, the snapshotted BOOT_INFO, the constant
SHIM_VIRT_OFFSET, the PAYLOAD_READY flag, the payload virtual base
PAYLOAD_VIRT_ADDR, and the initial frame pointer read from the rbp
register. -/
structure Config where
  translate : Nat → Bool
  load : Nat → Nat
  bootInfo : Option BootInfoM
  shimVirtOffset : Nat
  payloadReady : Bool
  payloadVirtAddr : Nat
  rbpInit : Nat

/-- Memory read of a 64-bit word: the stored value reduced to usize range. -/
def Config.loadVal (c : Config) (a : Nat) : Nat :=
  c.load a % USIZE_MOD

/-- One iteration of the frame walk: either the loop breaks, or it continues
with a next frame pointer, an optional printed line (tag, offset) where the
tag is true exactly for payload-relative lines, and the list of addresses
dereferenced this iteration. -/
inductive StepRes where
  | stop (derefs : List Nat)
  | cont (next : Nat) (printed : Option (Bool × Nat)) (derefs : List Nat)
deriving DecidableEq

/-- The printed line of a step, if any. -/
def StepRes.printedOf : StepRes → Option (Bool × Nat)
  | StepRes.stop _ => none
  | StepRes.cont _ pr _ => pr

/-- The addresses dereferenced by a step. -/
def StepRes.derefsOf : StepRes → List Nat
  | StepRes.stop ds => ds
  | StepRes.cont _ _ ds => ds

/-- One iteration of the loop of stack_trace (main.rs lines 198-236), with
shimOffset the precomputed shim start plus SHIM_VIRT_OFFSET:
rip_rbp = rbp.checked_add 8, breaking on overflow; both slots must translate
as mapped in the active table, else break; rip is read from rip_rbp and
decremented by checked_sub 1, breaking on underflow and breaking when the
decremented value is zero; if the decremented value supports checked_sub of
shimOffset the offset is printed with the shim tag and rbp is reloaded from
the frame; otherwise, only when PAYLOAD_READY holds, checked_sub of the
payload base either prints with the payload tag and reloads rbp, or breaks;
when PAYLOAD_READY is clear and neither branch applies, no statement runs
and the loop continues with rbp unchanged. -/
def traceStep (c : Config) (shimOffset rbp : Nat) : StepRes :=
  match checkedAdd rbp 8 with
  | none => StepRes.stop []
  | some rip_rbp =>
    if c.translate rbp && c.translate rip_rbp then
      match checkedSub (c.loadVal rip_rbp) 1 with
      | none => StepRes.stop [rip_rbp]
      | some rip1 =>
        if rip1 = 0 then StepRes.stop [rip_rbp]
        else
          match checkedSub rip1 shimOffset with
          | some off => StepRes.cont (c.loadVal rbp) (some (false, off)) [rip_rbp, rbp]
          | none =>
            if c.payloadReady then
              match checkedSub rip1 c.payloadVirtAddr with
              | some off => StepRes.cont (c.loadVal rbp) (some (true, off)) [rip_rbp, rbp]
              | none => StepRes.stop [rip_rbp]
            else
              StepRes.cont rbp none [rip_rbp]
    else StepRes.stop []

/-- The bounded frame walk: runs traceStep with the given fuel (64 in
stack_trace), returning the printed lines, the number of loop iterations
executed, and all dereferenced addresses in order. -/
def traceWalk (c : Config) (shimOffset : Nat) : Nat → Nat → List (Bool × Nat) × Nat × List Nat
  | 0, _ => ([], 0, [])
  | fuel + 1, rbp =>
    match traceStep c shimOffset rbp with
    | StepRes.stop ds => ([], 1, ds)
    | StepRes.cont rbp1 pr ds =>
      let rest := traceWalk c shimOffset fuel rbp1
      (pr.toList ++ rest.1, rest.2.1 + 1, ds ++ rest.2.2)

/-- Result of stack_trace: panicked records whether the function itself
panics before the walk (BOOT_INFO still none at the unwrap, or the shim
offset addition overflowing at the unwrap); otherwise the walk runs. -/
structure TraceResult where
  panicked : Bool
  output : List (Bool × Nat)
  iters : Nat
  derefs : List Nat
deriving DecidableEq

/-- Embeds stack_trace (main.rs lines 176-236): read rbp, unwrap the
BOOT_INFO snapshot, compute shim_offset = shim.start.checked_add
SHIM_VIRT_OFFSET with unwrap, then walk at most 64 frames. The lock
force-release steps touch only lock state, not the values read here. -/
def stack_trace (c : Config) : TraceResult :=
  match c.bootInfo with
  | none => ⟨true, [], 0, []⟩
  | some bi =>
    match checkedAdd bi.shimStart c.shimVirtOffset with
    | none => ⟨true, [], 0, []⟩
    | some shimOffset =>
      let r := traceWalk c shimOffset 64 (c.rbpInit % USIZE_MOD)
      ⟨false, r.1, r.2.1, r.2.2⟩

/-- Concrete environment for the payload-offset scenario: payload base
0x1000, payload ready, and the first saved return address is the payload
base plus 0x20; the second frame carries a zero return address, ending the
walk. -/
def cfgPayload : Config :=
  ⟨fun a => decide (a < 0x100), fun a => if a = 0x18 then 0x1020 else 0,
   some ⟨0, 0x2000⟩, 0x100000, true, 0x1000, 0x10⟩

/-- Concrete environment in which every frame resolves to neither range
while PAYLOAD_READY is clear: all addresses mapped, every word reads 0x50,
shim offset 0x100000. -/
def cfgIdle : Config :=
  ⟨fun _ => true, fun _ => 0x50, some ⟨0, 0x2000⟩, 0x100000, false, 0x1000, 0x10⟩

/-- Concrete environment whose first saved return address decrements to
0x99999, far above the shim loaded range, with shim line 0x1000 to 0x2000
and SHIM_VIRT_OFFSET 0x10000, so the shim virtual range is 0x11000 to
0x12000. -/
def cfgShimHigh : Config :=
  ⟨fun a => decide (a < 0x100), fun a => if a = 0x18 then 0x9999A else 0,
   some ⟨0x1000, 0x2000⟩, 0x10000, false, 0x1000, 0x10⟩

/-- Concrete environment for the decrement witness: everything mapped, the
first saved return address is 0x30, shim offset 0x10. -/
def cfgDecrement : Config :=
  ⟨fun _ => true, fun a => if a = 8 then 0x30 else 0,
   some ⟨0, 0x2000⟩, 0x10, false, 0x1000, 0⟩

end ShimSev

namespace ShimSev

theorem applyStep_post (s : TrustState) (p : ProgStep) (h : isPostStep p = true) :
    applyStep s p = s := by
  cases p <;> simp [isPostStep] at h ⊢ <;> rfl

theorem foldl_post (post : List ProgStep) (h : post.all isPostStep = true) :
    ∀ s : TrustState, post.foldl applyStep s = s := by
  induction post with
  | nil => intro s; rfl
  | cons p ps ih =>
    intro s
    simp only [List.all_cons, Bool.and_eq_true] at h
    rw [List.foldl_cons, applyStep_post s p h.1, ih h.2 s]

theorem stateAfter_eq_boot (k : Nat) (post : List ProgStep)
    (h : post.all isPostStep = true) :
    stateAfter k post = stateAfter k [] := by
  unfold stateAfter
  rw [List.foldl_append, foldl_post post h, List.append_nil]

theorem take_boot_saturates (k : Nat) (h : 7 ≤ k) : bootSteps.take k = bootSteps := by
  apply List.take_of_length_le
  simp [bootSteps]
  omega

/-- Claim C1: in every execution of the bootstrap entry function, the
communication block is switched to its unencrypted mapping only after both
the boot metadata record has been copied by value into the process-wide
trust state and the attestation secret has been copied out of it: no
reachable state has unencrypted set while snapshotDone or secretDone is
still false. -/
theorem bootstrap_unencrypted_after_snapshot_and_secret (k : Nat)
    (post : List ProgStep) (hpost : post.all isPostStep = true)
    (hu : (stateAfter k post).unencrypted = true) :
    (stateAfter k post).snapshotDone = true ∧
      (stateAfter k post).secretDone = true := by
  rw [stateAfter_eq_boot k post hpost] at hu ⊢
  rcases Nat.lt_or_ge k 7 with h | h
  · interval_cases k <;> revert hu <;> decide
  · have ht := take_boot_saturates k h
    unfold stateAfter at hu ⊢
    rw [ht] at hu ⊢
    revert hu
    decide

/-- Witness for C1 at the completed bootstrap. -/
theorem bootstrap_unencrypted_witness :
    (stateAfter 7 []).snapshotDone = true ∧ (stateAfter 7 []).secretDone = true :=
  bootstrap_unencrypted_after_snapshot_and_secret 7 [] (by decide) (by decide)

/-- Claim C9: across the process lifetime and for all fault injections
during bootstrap, each of C_BIT_MASK, BOOT_INFO and SHIM_HOSTCALL_PHYS_ADDR
is written at most once, and every post-bootstrap code path, including the
panic handler and the diagnostic unwinder, leaves all three (and the rest of
the trust state) unchanged. -/
theorem trust_statics_single_writer (k : Nat) (post : List ProgStep)
    (hpost : post.all isPostStep = true) :
    ((stateAfter k post).cBitWrites ≤ 1 ∧
      (stateAfter k post).hostcallAddrWrites ≤ 1 ∧
      (stateAfter k post).bootInfoWrites ≤ 1) ∧
    ∀ (s : TrustState) (p : ProgStep), isPostStep p = true → applyStep s p = s := by
  constructor
  · rw [stateAfter_eq_boot k post hpost]
    rcases Nat.lt_or_ge k 7 with h | h
    · interval_cases k <;> decide
    · have ht := take_boot_saturates k h
      unfold stateAfter
      rw [ht]
      decide
  · exact fun s p h => applyStep_post s p h

/-- Witness for C9 after a fault at the end of bootstrap enters the panic
handler and the unwinder. -/
theorem trust_statics_single_writer_witness :
    (stateAfter 7 [ProgStep.panicEnter, ProgStep.unwinderRun]).cBitWrites ≤ 1 ∧
      (stateAfter 7 [ProgStep.panicEnter, ProgStep.unwinderRun]).hostcallAddrWrites ≤ 1 ∧
      (stateAfter 7 [ProgStep.panicEnter, ProgStep.unwinderRun]).bootInfoWrites ≤ 1 :=
  (trust_statics_single_writer 7 [ProgStep.panicEnter, ProgStep.unwinderRun]
    (by decide)).1

/-- Claim C7: printing is enabled only after both the boot metadata snapshot
and the communication-block remap have completed, and a panic raised while
printing is disabled produces no output and ends in the triple-fault machine
reset. -/
theorem printing_after_snapshot_and_remap :
    (∀ (k : Nat) (post : List ProgStep), post.all isPostStep = true →
      (stateAfter k post).printingEnabled = true →
      (stateAfter k post).snapshotDone = true ∧
        (stateAfter k post).unencrypted = true) ∧
    ∀ b : Bool, panic false b = (false, PanicOutcome.tripleFault) := by
  constructor
  · intro k post hpost hp
    rw [stateAfter_eq_boot k post hpost] at hp ⊢
    rcases Nat.lt_or_ge k 7 with h | h
    · interval_cases k <;> revert hp <;> decide
    · have ht := take_boot_saturates k h
      unfold stateAfter at hp ⊢
      rw [ht] at hp ⊢
      revert hp
      decide
  · intro b
    cases b <;> rfl

/-- Witness for C7 at the state right after printing is first enabled. -/
theorem printing_after_snapshot_witness :
    (stateAfter 6 []).snapshotDone = true ∧ (stateAfter 6 []).unencrypted = true :=
  printing_after_snapshot_and_remap.1 6 [] (by decide) (by decide)

/-- Claim C6: a fault raised while the diagnostic unwinder is already
running, that is with the reentrancy flag already true, produces no output
and proceeds directly to the triple-fault machine reset, whether or not
printing is enabled. -/
theorem panic_reentrant_silent_reset (printingEnabled : Bool) :
    panic printingEnabled true = (false, PanicOutcome.tripleFault) := by
  cases printingEnabled <;> rfl

/-- Counterexample to claim C3 as stated: the target stack pointer 0x1000 is
16-byte aligned, so switch_shim_stack accepts it and transfers control, and
is not rejected as the claimed scenario says. -/
theorem switch_shim_stack_0x1000_cex :
    switch_shim_stack 0x1000 = SwitchResult.transferred ∧
      SwitchResult.transferred ≠ SwitchResult.panicked ∧ 0x1000 % 16 = 0 := by
  decide

/-- Claim C3, amended: switch_shim_stack fails before any control transfer
exactly when the target stack pointer is not 16-byte aligned, and transfers
control to the supplied entry function when it is; in particular both 0x1000
and 0x1FF0 are 16-byte aligned and accepted. -/
theorem switch_shim_stack_alignment (sp : Nat) :
    (sp % 16 ≠ 0 → switch_shim_stack sp = SwitchResult.panicked) ∧
    (sp % 16 = 0 → switch_shim_stack sp = SwitchResult.transferred) ∧
    switch_shim_stack 0x1000 = SwitchResult.transferred ∧
    switch_shim_stack 0x1FF0 = SwitchResult.transferred := by
  refine ⟨fun h => ?_, fun h => ?_, by decide, by decide⟩ <;>
    simp [switch_shim_stack, h]

/-- Witness for the amended C3 at a misaligned and an aligned target. -/
theorem switch_shim_stack_alignment_witness :
    switch_shim_stack 21 = SwitchResult.panicked ∧
      switch_shim_stack 0x1FF0 = SwitchResult.transferred :=
  ⟨(switch_shim_stack_alignment 21).1 (by decide),
   (switch_shim_stack_alignment 0x1FF0).2.1 (by decide)⟩

theorem traceStep_derefs_translated (c : Config) (so rbp : Nat) :
    ((traceStep c so rbp).derefsOf.all c.translate) = true := by
  unfold traceStep
  repeat' split
  all_goals simp_all [StepRes.derefsOf]

theorem traceWalk_iters_le (c : Config) (so : Nat) :
    ∀ fuel rbp : Nat, (traceWalk c so fuel rbp).2.1 ≤ fuel := by
  intro fuel
  induction fuel with
  | zero => intro rbp; simp [traceWalk]
  | succ m ih =>
    intro rbp
    rw [traceWalk]
    cases h : traceStep c so rbp with
    | stop ds => simp
    | cont rbp1 pr ds =>
      simp only
      exact Nat.succ_le_succ (ih rbp1)

theorem traceWalk_derefs_translated (c : Config) (so : Nat) :
    ∀ fuel rbp : Nat, ((traceWalk c so fuel rbp).2.2.all c.translate) = true := by
  intro fuel
  induction fuel with
  | zero => intro rbp; rfl
  | succ m ih =>
    intro rbp
    have hstep := traceStep_derefs_translated c so rbp
    rw [traceWalk]
    cases h : traceStep c so rbp with
    | stop ds =>
      rw [h] at hstep
      simpa [StepRes.derefsOf] using hstep
    | cont rbp1 pr ds =>
      rw [h] at hstep
      simp only [StepRes.derefsOf] at hstep
      simp [List.all_append, hstep, ih rbp1]

/-- Claim C2: for every environment, including adversarially corrupted
frame-pointer chains, stack_trace executes at most 64 loop iterations, and
every address it dereferences (a frame-pointer slot or a return-address
slot) has been translated as mapped by the active page table. -/
theorem stack_trace_bounded_and_mapped (c : Config) :
    (stack_trace c).iters ≤ 64 ∧ ((stack_trace c).derefs.all c.translate) = true := by
  unfold stack_trace
  split
  · exact ⟨by simp, rfl⟩
  · split
    · exact ⟨by simp, rfl⟩
    · exact ⟨traceWalk_iters_le c _ 64 _, traceWalk_derefs_translated c _ 64 _⟩

/-- Counterexample to claim C5 as stated: in the environment cfgIdle the
very first captured return address resolves to neither the shim range nor
the payload range (the readiness flag is clear), yet the walk does not stop
there: the iteration neither breaks nor advances the frame pointer, and the
loop runs all 64 iterations instead of stopping at the first. -/
theorem walk_unclassified_no_stop_cex :
    traceStep cfgIdle 0x100000 0x10 = StepRes.cont 0x10 none [0x18] ∧
    (stack_trace cfgIdle).iters = 64 ∧
    (stack_trace cfgIdle).output = [] ∧
    (stack_trace cfgIdle).iters ≠ 1 := by
  decide

/-- Claim C5, amended: the walk breaks immediately, examining no further
frames, when the frame-pointer addition would overflow, when a slot is
unmapped, when the captured return address is zero or decrements to zero,
or when, with the readiness flag set, the decremented address lies below
both the shim base and the payload base; but when the readiness flag is
clear and the decremented address lies below the shim base, the iteration
does not break: it prints nothing and leaves the frame pointer unchanged,
so the walk idles until the 64-iteration bound. The final conjunct states
that a breaking step ends the walk at once. -/
theorem walk_stop_and_idle_conditions (c : Config) (so rbp fuel : Nat) :
    (checkedAdd rbp 8 = none → traceStep c so rbp = StepRes.stop []) ∧
    (checkedAdd rbp 8 = some (rbp + 8) →
      (c.translate rbp && c.translate (rbp + 8)) = false →
      traceStep c so rbp = StepRes.stop []) ∧
    (checkedAdd rbp 8 = some (rbp + 8) →
      (c.translate rbp && c.translate (rbp + 8)) = true →
      c.loadVal (rbp + 8) ≤ 1 → traceStep c so rbp = StepRes.stop [rbp + 8]) ∧
    (checkedAdd rbp 8 = some (rbp + 8) →
      (c.translate rbp && c.translate (rbp + 8)) = true →
      2 ≤ c.loadVal (rbp + 8) → c.loadVal (rbp + 8) - 1 < so →
      c.payloadReady = true → c.loadVal (rbp + 8) - 1 < c.payloadVirtAddr →
      traceStep c so rbp = StepRes.stop [rbp + 8]) ∧
    (checkedAdd rbp 8 = some (rbp + 8) →
      (c.translate rbp && c.translate (rbp + 8)) = true →
      2 ≤ c.loadVal (rbp + 8) → c.loadVal (rbp + 8) - 1 < so →
      c.payloadReady = false →
      traceStep c so rbp = StepRes.cont rbp none [rbp + 8]) ∧
    (∀ ds, traceStep c so rbp = StepRes.stop ds →
      traceWalk c so (fuel + 1) rbp = ([], 1, ds)) := by
  refine ⟨?_, ?_, ?_, ?_, ?_, ?_⟩
  · intro h
    unfold traceStep
    rw [h]
  · intro hadd hm
    unfold traceStep
    rw [hadd]
    simp [hm]
  · intro hadd hm hv
    unfold traceStep
    rw [hadd]
    simp only [hm, if_true]
    rcases Nat.le_one_iff_eq_zero_or_eq_one.mp hv with h0 | h1
    · simp [checkedSub, h0]
    · simp [checkedSub, h1]
  · intro hadd hm hv hso hready hpv
    unfold traceStep
    rw [hadd]
    simp only [hm, if_true]
    have h1 : checkedSub (c.loadVal (rbp + 8)) 1 = some (c.loadVal (rbp + 8) - 1) := by
      simp [checkedSub]
      omega
    rw [h1]
    have h2 : ¬ c.loadVal (rbp + 8) - 1 = 0 := by omega
    simp only [h2, if_false]
    have h3 : checkedSub (c.loadVal (rbp + 8) - 1) so = none := by
      simp [checkedSub]
      omega
    rw [h3, hready]
    have h4 : checkedSub (c.loadVal (rbp + 8) - 1) c.payloadVirtAddr = none := by
      simp [checkedSub]
      omega
    simp [h4]
  · intro hadd hm hv hso hready
    unfold traceStep
    rw [hadd]
    simp only [hm, if_true]
    have h1 : checkedSub (c.loadVal (rbp + 8)) 1 = some (c.loadVal (rbp + 8) - 1) := by
      simp [checkedSub]
      omega
    rw [h1]
    have h2 : ¬ c.loadVal (rbp + 8) - 1 = 0 := by omega
    simp only [h2, if_false]
    have h3 : checkedSub (c.loadVal (rbp + 8) - 1) so = none := by
      simp [checkedSub]
      omega
    rw [h3, hready]
    simp
  · intro ds h
    rw [traceWalk, h]

/-- Witness for the amended C5: in cfgIdle the first iteration is the idle
case, and a concrete stopping step ends a walk immediately. -/
theorem walk_stop_and_idle_witness :
    traceStep cfgIdle 0x100000 0x10 = StepRes.cont 0x10 none [0x18] ∧
      traceWalk cfgIdle 0x100000 64 (2 ^ 64 - 4) = ([], 1, []) := by
  constructor
  · exact (walk_stop_and_idle_conditions cfgIdle 0x100000 0x10 0).2.2.2.2.1
      (by decide) (by decide) (by decide) (by decide) (by decide)
  · exact (walk_stop_and_idle_conditions cfgIdle 0x100000 (2 ^ 64 - 4) 63).2.2.2.2.2 []
      (by decide)

theorem traceStep_payload_tag_ready (c : Config) (so rbp n off : Nat)
    (ds : List Nat)
    (h : traceStep c so rbp = StepRes.cont n (some (true, off)) ds) :
    c.payloadReady = true := by
  unfold traceStep at h
  repeat' split at h
  all_goals simp_all

theorem traceStep_shim_print (c : Config) (so : Nat) :
    ∀ (rbp n off : Nat) (ds : List Nat),
      traceStep c so rbp = StepRes.cont n (some (false, off)) ds →
      so ≤ c.loadVal (rbp + 8) - 1 ∧ off = c.loadVal (rbp + 8) - 1 - so := by
  intro rbp n off ds h
  unfold traceStep at h
  repeat' split at h
  all_goals simp_all [checkedAdd, checkedSub]

/-- Counterexample to claim C4 as stated: in cfgPayload the readiness flag
is set and the captured return address equals the payload base plus 0x20,
but the unwinder prints the payload-relative offset 0x1F, not 0x20, because
it decrements the saved return address by one before computing the offset. -/
theorem payload_offset_cex :
    cfgPayload.payloadReady = true ∧
    cfgPayload.loadVal 0x18 = cfgPayload.payloadVirtAddr + 0x20 ∧
    (stack_trace cfgPayload).output = [(true, 0x1F)] ∧
    ¬ (true, 0x20) ∈ (stack_trace cfgPayload).output := by
  decide

/-- Claim C4, amended: when the readiness flag is set and the first saved
return address equals the payload base plus 0x20 (below the shim base), the
unwinder prints it as the payload-relative offset 0x1F, with the payload
tag true distinct from the shim tag false, the decrement by one having been
applied first. -/
theorem payload_return_address_offset (c : Config) (bi : BootInfoM) (so : Nat)
    (hbi : c.bootInfo = some bi)
    (hso : checkedAdd bi.shimStart c.shimVirtOffset = some so)
    (hrbp : c.rbpInit < USIZE_MOD)
    (hadd : checkedAdd c.rbpInit 8 = some (c.rbpInit + 8))
    (hm : (c.translate c.rbpInit && c.translate (c.rbpInit + 8)) = true)
    (hready : c.payloadReady = true)
    (hv : c.loadVal (c.rbpInit + 8) = c.payloadVirtAddr + 0x20)
    (hlt : c.payloadVirtAddr + 0x1F < so) :
    ∃ rest, (stack_trace c).output = (true, 0x1F) :: rest := by
  have hstep : traceStep c so c.rbpInit =
      StepRes.cont (c.loadVal c.rbpInit) (some (true, 0x1F))
        [c.rbpInit + 8, c.rbpInit] := by
    unfold traceStep
    rw [hadd]
    simp only [hm, if_true]
    have h1 : checkedSub (c.loadVal (c.rbpInit + 8)) 1 =
        some (c.payloadVirtAddr + 0x1F) := by
      rw [hv]
      simp [checkedSub]
    rw [h1]
    have h2 : ¬ c.payloadVirtAddr + 0x1F = 0 := by omega
    simp only [h2, if_false]
    have h3 : checkedSub (c.payloadVirtAddr + 0x1F) so = none := by
      simp [checkedSub]
      omega
    rw [h3, hready]
    have h4 : checkedSub (c.payloadVirtAddr + 0x1F) c.payloadVirtAddr =
        some 0x1F := by
      simp [checkedSub]
    simp [h4]
  simp only [stack_trace, hbi, hso]
  rw [Nat.mod_eq_of_lt hrbp]
  rw [show (64 : Nat) = 63 + 1 from rfl, traceWalk, hstep]
  exact ⟨(traceWalk c so 63 (c.loadVal c.rbpInit)).1, rfl⟩

/-- Witness for the amended C4 in the concrete environment cfgPayload. -/
theorem payload_return_address_offset_witness :
    ∃ rest, (stack_trace cfgPayload).output = (true, 0x1F) :: rest :=
  payload_return_address_offset cfgPayload ⟨0, 0x2000⟩ 0x100000 (by decide)
    (by decide) (by decide) (by decide) (by decide) (by decide) (by decide)
    (by decide)

/-- Counterexample to claim C8 as stated: in cfgShimHigh the shim line is
0x1000 to 0x2000 with SHIM_VIRT_OFFSET 0x10000, so the shim loaded virtual
range ends at 0x12000, yet the unwinder prints the shim-tagged offset
0x88999, whose decremented return address 0x11000 + 0x88999 = 0x99999 lies
far outside that range: the classification checks only the lower bound. -/
theorem shim_tag_outside_range_cex :
    (stack_trace cfgShimHigh).output = [(false, 0x88999)] ∧
    cfgShimHigh.bootInfo = some ⟨0x1000, 0x2000⟩ ∧
    ¬ 0x1000 + cfgShimHigh.shimVirtOffset + 0x88999 <
        0x2000 + cfgShimHigh.shimVirtOffset := by
  decide

/-- Claim C8, amended: a return address is attributed to the payload range
only when the readiness flag is set, and shim-relative attribution
guarantees only the lower bound: every line printed with the shim tag comes
from a decremented saved return address at or above the shim virtual base,
with the printed offset measured from that base, and no upper bound is
checked. -/
theorem shim_and_payload_attribution (c : Config) (so : Nat) :
    (∀ fuel rbp off, (true, off) ∈ (traceWalk c so fuel rbp).1 →
      c.payloadReady = true) ∧
    (∀ rbp n off ds, traceStep c so rbp = StepRes.cont n (some (false, off)) ds →
      so ≤ c.loadVal (rbp + 8) - 1 ∧ off = c.loadVal (rbp + 8) - 1 - so) := by
  constructor
  · intro fuel
    induction fuel with
    | zero => intro rbp off h; simp [traceWalk] at h
    | succ m ih =>
      intro rbp off h
      rw [traceWalk] at h
      cases hs : traceStep c so rbp with
      | stop ds => rw [hs] at h; simp at h
      | cont rbp1 pr ds =>
        rw [hs] at h
        simp only [List.mem_append] at h
        rcases h with h | h
        · cases pr with
          | none => simp [Option.toList] at h
          | some p =>
            simp [Option.toList] at h
            rw [← h] at hs
            exact traceStep_payload_tag_ready c so rbp rbp1 off ds hs
        · exact ih rbp1 off h
  · exact traceStep_shim_print c so

/-- Witness for the amended C8: the shim-tagged line of cfgShimHigh comes
from a decremented return address at or above the shim virtual base
0x11000, at the printed distance 0x88999 from it. -/
theorem shim_and_payload_attribution_witness :
    0x11000 ≤ cfgShimHigh.loadVal (0x10 + 8) - 1 ∧
      0x88999 = cfgShimHigh.loadVal (0x10 + 8) - 1 - 0x11000 :=
  (shim_and_payload_attribution cfgShimHigh 0x11000).2 0x10 0 0x88999
    [0x18, 0x10] (by decide)

/-- Claim C10: for every reported frame the unwinder first decrements the
saved return address by one, stopping the walk when the decremented value
is zero, and only then classifies and prints: the printed offset is the
saved return address minus one minus the matched base, for the shim base
and, when reached, the payload base. -/
theorem return_address_decremented (c : Config) (so rbp : Nat)
    (hadd : checkedAdd rbp 8 = some (rbp + 8))
    (hm : (c.translate rbp && c.translate (rbp + 8)) = true) :
    (c.loadVal (rbp + 8) = 1 → traceStep c so rbp = StepRes.stop [rbp + 8]) ∧
    (so ≤ c.loadVal (rbp + 8) - 1 → 2 ≤ c.loadVal (rbp + 8) →
      (traceStep c so rbp).printedOf =
        some (false, c.loadVal (rbp + 8) - 1 - so)) ∧
    (c.loadVal (rbp + 8) - 1 < so → 2 ≤ c.loadVal (rbp + 8) →
      c.payloadReady = true → c.payloadVirtAddr ≤ c.loadVal (rbp + 8) - 1 →
      (traceStep c so rbp).printedOf =
        some (true, c.loadVal (rbp + 8) - 1 - c.payloadVirtAddr)) := by
  refine ⟨?_, ?_, ?_⟩
  · intro hv
    unfold traceStep
    rw [hadd]
    simp [hm, checkedSub, hv]
  · intro hso hv
    unfold traceStep
    rw [hadd]
    simp only [hm, if_true]
    have h1 : checkedSub (c.loadVal (rbp + 8)) 1 =
        some (c.loadVal (rbp + 8) - 1) := by
      simp [checkedSub]
      omega
    rw [h1]
    have h2 : ¬ c.loadVal (rbp + 8) - 1 = 0 := by omega
    simp only [h2, if_false]
    have h3 : checkedSub (c.loadVal (rbp + 8) - 1) so =
        some (c.loadVal (rbp + 8) - 1 - so) := by
      simp [checkedSub, hso]
    rw [h3]
    rfl
  · intro hso hv hready hpv
    unfold traceStep
    rw [hadd]
    simp only [hm, if_true]
    have h1 : checkedSub (c.loadVal (rbp + 8)) 1 =
        some (c.loadVal (rbp + 8) - 1) := by
      simp [checkedSub]
      omega
    rw [h1]
    have h2 : ¬ c.loadVal (rbp + 8) - 1 = 0 := by omega
    simp only [h2, if_false]
    have h3 : checkedSub (c.loadVal (rbp + 8) - 1) so = none := by
      simp [checkedSub]
      omega
    rw [h3, hready]
    have h4 : checkedSub (c.loadVal (rbp + 8) - 1) c.payloadVirtAddr =
        some (c.loadVal (rbp + 8) - 1 - c.payloadVirtAddr) := by
      simp [checkedSub, hpv]
    simp [h4]
    rfl

/-- Witness for C10 in cfgDecrement: the saved return address 0x30 above
the shim base 0x10 prints as 0x30 - 1 - 0x10 = 0x1F. -/
theorem return_address_decremented_witness :
    (traceStep cfgDecrement 0x10 0).printedOf = some (false, 0x1F) := by
  have h := (return_address_decremented cfgDecrement 0x10 0 (by decide)
    (by decide)).2.1 (by decide) (by decide)
  simpa using h

end ShimSev
